import Mathlib

/-!
Shallow embedding of the REST transport core of `basispoort-sync-client`
(`src/rest.rs`, `src/error.rs`).

Pure logic is translated directly. External effects enter as explicit
arguments: the network transfer, the filesystem reads performed by the
builder, and the serde_json encode/decode steps (which are generic over
caller types in the source). The `url` crate's parse/join is modelled by an
executable WHATWG-style resolver restricted to the http(s) URL shapes this
client produces.
-/

namespace Basispoort

/-- Models serde_json::Value: a JSON document. Number precision is
irrelevant to the transport layer, so numbers are integers here. -/
inductive Json where
  | null
  | bool (b : Bool)
  | num (n : Int)
  | str (s : String)
  | arr (elems : List Json)
  | obj (fields : List (String × Json))

/-- Models std::io::Error as an opaque message. -/
structure IoError where
  msg : String
deriving DecidableEq

/-- Models serde_json::Error as an opaque message. -/
structure SerdeJsonError where
  msg : String
deriving DecidableEq

/-- Models reqwest::Error by the kinds the client distinguishes: a builder
error (RequestBuilder::json stores a payload-serialization failure in the
builder, and send returns it), a status error (from error_for_status_ref),
and transport-level failures. -/
inductive ReqwestError where
  | builder (source : SerdeJsonError)
  | status (code : Nat)
  | transport (msg : String)
deriving DecidableEq

/-- Models url::ParseError, restricted to the variants the embedded
resolver can produce. -/
inductive UrlParseError where
  | EmptyHost
  | RelativeUrlWithoutBase
  | InvalidDomainCharacter
deriving DecidableEq

/-- Models url::Url restricted to the shape this client uses: scheme, host
and path of an http(s)-style URL. Query and fragment are not modelled; no
claim depends on them. -/
structure Url where
  scheme : String
  host : String
  path : String
deriving DecidableEq

/-- Tail of the WHATWG scheme grammar: ASCII alphanumerics and the
characters +, -, . up to a terminating colon. -/
def schemeTail : List Char → Bool
  | [] => false
  | c :: rest =>
    if c = ':' then true
    else if c.isAlphanum || c = '+' || c = '-' || c = '.' then schemeTail rest
    else false

/-- Whether a character list begins with a URL scheme followed by a colon
(WHATWG scheme grammar: an ASCII alpha, then scheme characters, then a
colon). Used by the resolver to decide absolute-URL inputs. -/
def beginsWithSchemeL : List Char → Bool
  | [] => false
  | c :: rest => c.isAlpha && schemeTail rest

/-- Whether a string begins with a URL scheme followed by a colon. -/
def beginsWithScheme (p : String) : Bool :=
  beginsWithSchemeL p.toList

/-- A C0 control or space (WHATWG): code point at most U+0020. The
standard strips these from both ends of the input before parsing. -/
def isC0OrSpace (c : Char) : Bool :=
  c.val ≤ 32

/-- An ASCII tab or newline (WHATWG): U+0009, U+000A or U+000D. The
standard removes these everywhere in the input before parsing. -/
def isTabOrNewline (c : Char) : Bool :=
  c = '\t' || c = '\n' || c = '\r'

/-- WHATWG URL input preparation, applied by the url crate before parsing
or resolving: strip leading and trailing C0 controls and spaces, then
remove every ASCII tab and newline. -/
def prepareInput (p : String) : List Char :=
  ((((p.toList.dropWhile isC0OrSpace).reverse.dropWhile isC0OrSpace).reverse).filter
    (fun c => !isTabOrNewline c))

/-- A slash or backslash: the WHATWG parser treats both as slashes for
special (http/https) URLs. -/
def isSlashChar (c : Char) : Bool :=
  c = '/' || c = '\\'

/-- Splits a character list into the authority part (up to the first slash
or backslash, the authority terminators of a special URL) and the
remainder. -/
def hostSpan : List Char → List Char × List Char
  | [] => ([], [])
  | c :: rest =>
    if isSlashChar c then ([], c :: rest)
    else
      let (h, t) := hostSpan rest
      (c :: h, t)

/-- Skips every leading slash and backslash, as the WHATWG special
authority ignore-slashes state does before the authority. -/
def skipSlashes : List Char → List Char
  | [] => []
  | c :: rest => if isSlashChar c then skipSlashes rest else c :: rest

/-- Splits a character list at its first colon: the characters before the
colon and those after it. -/
def splitAtColon : List Char → Option (List Char × List Char)
  | [] => none
  | c :: rest =>
    if c = ':' then some ([], rest)
    else
      match splitAtColon rest with
      | some (pre, post) => some (c :: pre, post)
      | none => none

/-- Models url::Url::parse on absolute http(s)-style URLs: the input is
first prepared as the WHATWG standard requires, then a scheme, the
separator "://", a non-empty host, then a path (normalised to "/" when
absent). A string with no leading scheme fails with
RelativeUrlWithoutBase, as in the url crate; an empty host fails with
EmptyHost. -/
def Url.parse (s : String) : Except UrlParseError Url :=
  let l := prepareInput s
  if beginsWithSchemeL l then
    match splitAtColon l with
    | some (schemeChars, afterColon) =>
      match afterColon with
      | '/' :: '/' :: authorityAndPath =>
        let (h, t) := hostSpan authorityAndPath
        if h.isEmpty then .error .EmptyHost
        else .ok { scheme := String.mk schemeChars, host := String.mk h,
                   path := if t.isEmpty then "/" else String.mk t }
      | _ => .error .InvalidDomainCharacter
    | none => .error .RelativeUrlWithoutBase
  else .error .RelativeUrlWithoutBase

/-- The directory of a URL path: everything up to and including the last
slash ("/" when the path has none). -/
def dirOf (p : String) : String :=
  let r := (p.toList.reverse).dropWhile (fun c => !(c = '/'))
  if r.isEmpty then "/" else String.mk r.reverse

/-- Whether a path enters the WHATWG authority-replacement states when
resolved against a special base: after input preparation its first two
characters are each a slash or a backslash (the relative-slash and
special-authority states treat the two interchangeably, so this covers
protocol-relative forms like //host, \\host, /\host, and their
whitespace-obfuscated variants). -/
def replacesAuthority (p : String) : Bool :=
  match prepareInput p with
  | c1 :: c2 :: _ => isSlashChar c1 && isSlashChar c2
  | _ => false

/-- Models url::Url::join, the WHATWG relative-reference resolution
against a special (https) base. The input is first prepared (C0 controls
and spaces stripped from the ends, tabs and newlines removed). An input
with a scheme is parsed as an absolute URL. Otherwise backslashes count
as slashes: an input whose first two prepared characters are slash-like
replaces the authority, with any further leading slashes skipped (the
special authority ignore-slashes state); an input starting with a single
slash-like character replaces the whole path; an empty input keeps the
base path; any other input is resolved against the directory of the base
path. Query and fragment splitting and within-path backslash
normalisation are not modelled; no claim depends on them. -/
def Url.join (base : Url) (input : String) : Except UrlParseError Url :=
  let l := prepareInput input
  if beginsWithSchemeL l then Url.parse input
  else
    match l with
    | c1 :: c2 :: rest =>
      if isSlashChar c1 && isSlashChar c2 then
        let (h, t) := hostSpan (skipSlashes rest)
        if h.isEmpty then .error .EmptyHost
        else .ok { scheme := base.scheme, host := String.mk h,
                   path := if t.isEmpty then "/" else String.mk t }
      else if isSlashChar c1 then
        .ok { scheme := base.scheme, host := base.host,
              path := String.mk (c1 :: c2 :: rest) }
      else
        .ok { scheme := base.scheme, host := base.host,
              path := dirOf base.path ++ String.mk (c1 :: c2 :: rest) }
    | [c1] =>
      if isSlashChar c1 then
        .ok { scheme := base.scheme, host := base.host, path := String.mk [c1] }
      else
        .ok { scheme := base.scheme, host := base.host,
              path := dirOf base.path ++ String.mk [c1] }
    | [] => .ok { scheme := base.scheme, host := base.host, path := base.path }

/-- A Basispoort environment (src/rest.rs, enum Environment). -/
inductive Environment where
  | Test
  | Acceptance
  | Staging
  | Production
deriving DecidableEq

/-- Environment parse error (src/rest.rs, enum ParseEnvironmentError). -/
inductive ParseEnvironmentError where
  | InvalidEnvironmentString (s : String)
deriving DecidableEq

/-- impl FromStr for Environment (src/rest.rs 123-136): the four exact
lowercase literals succeed; everything else is
InvalidEnvironmentString carrying the input. -/
def Environment.from_str (s : String) : Except ParseEnvironmentError Environment :=
  if s = "test" then .ok .Test
  else if s = "acceptance" then .ok .Acceptance
  else if s = "staging" then .ok .Staging
  else if s = "production" then .ok .Production
  else .error (.InvalidEnvironmentString s)

/-- The fixed literal each Environment::base_url arm parses
(src/rest.rs 138-147). -/
def Environment.base_url_string : Environment → String
  | .Test => "https://test-rest.basispoort.nl/"
  | .Acceptance => "https://acceptatie-rest.basispoort.nl/"
  | .Staging => "https://staging-rest.basispoort.nl/"
  | .Production => "https://rest.basispoort.nl/"

/-- Environment::base_url (src/rest.rs 138-147): parse the fixed literal
and unwrap. The error branch here models the unwrap's panic; it is proved
unreachable below. -/
def Environment.base_url (e : Environment) : Url :=
  match Url.parse e.base_url_string with
  | .ok u => u
  | .error _ => { scheme := "", host := "", path := "" }

/-- Models reqwest::tls::Version, the values the builder can set. -/
inductive Version where
  | TLS_1_0
  | TLS_1_1
  | TLS_1_2
  | TLS_1_3
deriving DecidableEq

/-- Models std::time::Duration at the granularity the builder uses. -/
structure Duration where
  secs : Nat
deriving DecidableEq

/-- Duration::from_secs. -/
def Duration.from_secs (n : Nat) : Duration := ⟨n⟩

/-- Models reqwest::Identity: the parsed client certificate and key. -/
structure Identity where
  pem : List Nat
deriving DecidableEq

/-- The configuration the builder hands to reqwest ClientBuilder:
identity, connect timeout, total timeout and minimum TLS version. -/
structure ClientConfig where
  identity : Identity
  connect_timeout : Duration
  timeout : Duration
  min_tls_version : Version
deriving DecidableEq

/-- Models reqwest::Client as the configuration baked into it. -/
structure HttpClient where
  config : ClientConfig
deriving DecidableEq

/-- The error-body payload (src/error.rs, enum ErrorResponse): the decoded
JSON value when the server's error body parses, else the raw text. -/
inductive ErrorResponse where
  | JSON (v : Json)
  | Plain (s : String)

/-- The unified error taxonomy (src/error.rs, enum Error). Sources are the
modelled library errors. -/
inductive Error where
  | OpenIdentityCertFile (path : String) (source : IoError)
  | ReadIdentityCertFile (path : String) (source : IoError)
  | ParseIdentityCertFile (path : String) (source : ReqwestError)
  | BuildRequestClient (source : ReqwestError)
  | ParseUrl (url : String) (source : UrlParseError)
  | OpenIconFile (path : String) (source : IoError)
  | ReadIconFile (path : String) (source : IoError)
  | EncodePayload (source : SerdeJsonError)
  | HttpRequest (source : ReqwestError)
  | HttpResponse (url : Url) (status : Nat) (error_response : ErrorResponse)
      (source : ReqwestError)
  | ReceiveResponseBody (source : ReqwestError)
  | DeserializeResponseBody (source : SerdeJsonError)
  | SerializeSearchPredicate (source : String)

/-- Whether an Error is the EncodePayload kind. -/
def Error.isEncodePayload : Error → Bool
  | .EncodePayload _ => true
  | _ => false

/-- Whether an Error is the HttpResponse kind. -/
def Error.isHttpResponse : Error → Bool
  | .HttpResponse _ _ _ _ => true
  | _ => false

/-- The transport client (src/rest.rs, struct RestClient): the configured
HTTP client and the environment's base URL. -/
structure RestClient where
  client : HttpClient
  base_url : Url

/-- The builder (src/rest.rs, struct RestClientBuilder). -/
structure RestClientBuilder where
  identity_cert_file : String
  environment : Environment
  connect_timeout : Duration
  timeout : Duration
  min_tls_version : Version
deriving DecidableEq

/-- RestClientBuilder::new (src/rest.rs 29-43): defaults of 10 s connect
timeout, 30 s total timeout and minimum TLS 1.2 (Basispoort does not
support TLS 1.3 yet). -/
def RestClientBuilder.new (identity_cert_file : String) (environment : Environment) :
    RestClientBuilder :=
  { identity_cert_file := identity_cert_file
    environment := environment
    connect_timeout := Duration.from_secs 10
    timeout := Duration.from_secs 30
    min_tls_version := Version.TLS_1_2 }

/-- RestClientBuilder::connect_timeout setter (src/rest.rs 46-49; renamed,
Lean reserves the field name for the projection). -/
def RestClientBuilder.set_connect_timeout (b : RestClientBuilder) (duration : Duration) :
    RestClientBuilder :=
  { b with connect_timeout := duration }

/-- RestClientBuilder::timeout setter (src/rest.rs 52-55; renamed, Lean
reserves the field name for the projection). -/
def RestClientBuilder.set_timeout (b : RestClientBuilder) (duration : Duration) :
    RestClientBuilder :=
  { b with timeout := duration }

/-- RestClientBuilder::min_tls_version setter (src/rest.rs 58-61; renamed,
Lean reserves the field name for the projection). -/
def RestClientBuilder.set_min_tls_version (b : RestClientBuilder) (version : Version) :
    RestClientBuilder :=
  { b with min_tls_version := version }

/-- RestClientBuilder::build (src/rest.rs 67-99). The external effects are
passed in as the results the source observes: the File::open outcome, the
read_to_end outcome, Identity::from_pem, and reqwest ClientBuilder::build
applied to the assembled configuration. Each failure maps to its distinct
error kind; on success the client holds the environment's base URL. -/
def RestClientBuilder.build (b : RestClientBuilder)
    (openResult : Except IoError Unit)
    (readResult : Except IoError (List Nat))
    (from_pem : List Nat → Except ReqwestError Identity)
    (clientBuild : ClientConfig → Except ReqwestError HttpClient) :
    Except Error RestClient :=
  match openResult with
  | .error source => .error (.OpenIdentityCertFile b.identity_cert_file source)
  | .ok _ =>
    match readResult with
    | .error source => .error (.ReadIdentityCertFile b.identity_cert_file source)
    | .ok cert =>
      match from_pem cert with
      | .error source => .error (.ParseIdentityCertFile b.identity_cert_file source)
      | .ok identity =>
        match clientBuild
            { identity := identity
              connect_timeout := b.connect_timeout
              timeout := b.timeout
              min_tls_version := b.min_tls_version } with
        | .error e => .error (.BuildRequestClient e)
        | .ok client => .ok { client := client, base_url := b.environment.base_url }

/-- Models reqwest::Response as the client observes it: the HTTP status
code and the outcome of reading the full body (Response::bytes). Body
bytes are modelled as the text they decode to; the error path's
String::from_utf8_lossy is then the identity. -/
structure Response where
  status : Nat
  bodyResult : Except ReqwestError String

/-- Models the test performed by reqwest Response::error_for_status_ref:
StatusCode::is_client_error (400-499) or is_server_error (500-599). -/
def statusIsError (status : Nat) : Bool :=
  decide (400 ≤ status) && decide (status ≤ 599)

/-- RestClient::make_url (src/rest.rs 157-166): join the path against the
base URL; a failure becomes ParseUrl carrying the offending path. -/
def RestClient.make_url (c : RestClient) (path : String) : Except Error Url :=
  match c.base_url.join path with
  | .ok url => .ok url
  | .error source => .error (.ParseUrl path source)

/-- RestClient::error_status (src/rest.rs 169-192). jsonParse models
serde_json::from_slice into serde_json::Value. When error_for_status_ref
reports an error status, the body is read once (a read failure is
ReceiveResponseBody), classified as JSON or Plain, and returned inside
HttpResponse together with the URL and status; otherwise the response
passes through. -/
def RestClient.error_status (_c : RestClient) (jsonParse : String → Option Json)
    (url : Url) (response : Response) : Except Error Response :=
  let status := response.status
  if statusIsError status then
    match response.bodyResult with
    | .error e => .error (.ReceiveResponseBody e)
    | .ok response_bytes =>
      let error_response :=
        match jsonParse response_bytes with
        | .some v => ErrorResponse.JSON v
        | .none => ErrorResponse.Plain response_bytes
      .error (.HttpResponse url status error_response (.status status))
  else .ok response

/-- RestClient::deserialize (src/rest.rs 194-210). decode models
serde_json::from_slice into the caller's result type. The body is read
(a failure is ReceiveResponseBody); a zero-length body is replaced by the
JSON literal null before decoding; a decode failure is
DeserializeResponseBody. -/
def RestClient.deserialize {T : Type} (_c : RestClient)
    (decode : String → Except SerdeJsonError T) (response : Response) :
    Except Error T :=
  match response.bodyResult with
  | .error e => .error (.ReceiveResponseBody e)
  | .ok payload_raw =>
    let payload_raw :=
      match payload_raw.length with
      | 0 => "null"
      | _ => payload_raw
    match decode payload_raw with
    | .error e => .error (.DeserializeResponseBody e)
    | .ok v => .ok v

/-- RestClient::get (src/rest.rs 213-226). net models
self.client.get(url).send(): the network transfer producing a response or
a reqwest error. -/
def RestClient.get {T : Type} (c : RestClient) (jsonParse : String → Option Json)
    (decode : String → Except SerdeJsonError T)
    (net : Url → Except ReqwestError Response) (path : String) : Except Error T :=
  match c.make_url path with
  | .error e => .error e
  | .ok url =>
    match net url with
    | .error e => .error (.HttpRequest e)
    | .ok response =>
      match c.error_status jsonParse url response with
      | .error e => .error e
      | .ok response => c.deserialize decode response

/-- Models reqwest RequestBuilder::json followed by send: a payload whose
JSON serialization failed is stored in the builder and surfaced by send as
a builder-kind reqwest error, with no request made; otherwise the request
is sent with the serialized body. -/
def sendWithJsonBody (net : Url → String → Except ReqwestError Response)
    (url : Url) (payloadSerialized : Except SerdeJsonError String) :
    Except ReqwestError Response :=
  match payloadSerialized with
  | .error e => .error (.builder e)
  | .ok body => net url body

/-- RestClient::post (src/rest.rs 229-247). payloadSerialized models
serde_json serialization of the caller's payload, performed inside
RequestBuilder::json; net models the network transfer. -/
def RestClient.post {T : Type} (c : RestClient) (jsonParse : String → Option Json)
    (decode : String → Except SerdeJsonError T)
    (net : Url → String → Except ReqwestError Response) (path : String)
    (payloadSerialized : Except SerdeJsonError String) : Except Error T :=
  match c.make_url path with
  | .error e => .error e
  | .ok url =>
    match sendWithJsonBody net url payloadSerialized with
    | .error e => .error (.HttpRequest e)
    | .ok response =>
      match c.error_status jsonParse url response with
      | .error e => .error e
      | .ok response => c.deserialize decode response

/-- RestClient::put (src/rest.rs 250-268): identical pipeline to post with
the PUT verb. -/
def RestClient.put {T : Type} (c : RestClient) (jsonParse : String → Option Json)
    (decode : String → Except SerdeJsonError T)
    (net : Url → String → Except ReqwestError Response) (path : String)
    (payloadSerialized : Except SerdeJsonError String) : Except Error T :=
  match c.make_url path with
  | .error e => .error e
  | .ok url =>
    match sendWithJsonBody net url payloadSerialized with
    | .error e => .error (.HttpRequest e)
    | .ok response =>
      match c.error_status jsonParse url response with
      | .error e => .error e
      | .ok response => c.deserialize decode response

/-- RestClient::delete (src/rest.rs 271-284): the GET pipeline with the
DELETE verb. -/
def RestClient.delete {T : Type} (c : RestClient) (jsonParse : String → Option Json)
    (decode : String → Except SerdeJsonError T)
    (net : Url → Except ReqwestError Response) (path : String) : Except Error T :=
  match c.make_url path with
  | .error e => .error e
  | .ok url =>
    match net url with
    | .error e => .error (.HttpRequest e)
    | .ok response =>
      match c.error_status jsonParse url response with
      | .error e => .error e
      | .ok response => c.deserialize decode response

/-- Models the serde deserialization of the Rust unit type: () deserializes
exactly from the JSON literal null, the bytes the client substitutes for an
empty body. -/
def decodeUnit (s : String) : Except SerdeJsonError Unit :=
  if s = "null" then .ok () else .error ⟨"invalid type"⟩

/-- The error-body classification performed inside error_status: the JSON
value when the body parses, else the raw text. -/
def errorBodyOf (jsonParse : String → Option Json) (body : String) : ErrorResponse :=
  match jsonParse body with
  | .some v => ErrorResponse.JSON v
  | .none => ErrorResponse.Plain body

/-- A concrete client against the Test environment, used to evaluate the
theorems at concrete inputs. -/
def testClient : RestClient :=
  { client :=
      { config :=
          { identity := ⟨[]⟩
            connect_timeout := Duration.from_secs 10
            timeout := Duration.from_secs 30
            min_tls_version := Version.TLS_1_2 } }
    base_url := Environment.Test.base_url }

/-- The URL make_url computes for the path "methode/abc" against the Test
environment's base URL. -/
def testUrl : Url :=
  { scheme := "https", host := "test-rest.basispoort.nl", path := "/methode/abc" }

/-- The client a successful build with the Test environment produces. -/
def builtTestClient : RestClient :=
  { client :=
      { config :=
          { identity := ⟨[]⟩
            connect_timeout := Duration.from_secs 10
            timeout := Duration.from_secs 30
            min_tls_version := Version.TLS_1_2 } }
    base_url := Environment.Test.base_url }

/-- C5: Environment string parsing is total and exact: the four lowercase
literals map to Test, Acceptance, Staging and Production, and every other
input fails with InvalidEnvironmentString carrying the offending string. -/
theorem environment_from_str_exact (s : String)
    (h1 : s ≠ "test") (h2 : s ≠ "acceptance") (h3 : s ≠ "staging")
    (h4 : s ≠ "production") :
    Environment.from_str "test" = .ok .Test
    ∧ Environment.from_str "acceptance" = .ok .Acceptance
    ∧ Environment.from_str "staging" = .ok .Staging
    ∧ Environment.from_str "production" = .ok .Production
    ∧ Environment.from_str s = .error (.InvalidEnvironmentString s) := by
  refine ⟨rfl, rfl, rfl, rfl, ?_⟩
  unfold Environment.from_str
  simp [h1, h2, h3, h4]

/-- Witness for C5 at the case variant "Test". -/
theorem environment_from_str_exact_witness :
    Environment.from_str "Test" = .error (.InvalidEnvironmentString "Test") :=
  (environment_from_str_exact "Test" (by decide) (by decide) (by decide)
    (by decide)).2.2.2.2

/-- C9: a fresh builder defaults to a 10 second connect timeout, a
30 second total timeout and minimum TLS 1.2 (not the higher 1.3), and each
setter overrides its field. -/
theorem builder_defaults_and_overrides (file : String) (e : Environment)
    (d d2 : Duration) (v : Version) :
    (RestClientBuilder.new file e).connect_timeout = Duration.from_secs 10
    ∧ (RestClientBuilder.new file e).timeout = Duration.from_secs 30
    ∧ (RestClientBuilder.new file e).min_tls_version = Version.TLS_1_2
    ∧ decide (Version.TLS_1_2 = Version.TLS_1_3) = false
    ∧ ((RestClientBuilder.new file e).set_connect_timeout d).connect_timeout = d
    ∧ ((RestClientBuilder.new file e).set_timeout d2).timeout = d2
    ∧ ((RestClientBuilder.new file e).set_min_tls_version v).min_tls_version = v :=
  ⟨rfl, rfl, rfl, rfl, rfl, rfl, rfl⟩

/-- C10: Environment::base_url is total: parsing each of the four fixed
literals succeeds, so the source's unwrap never panics, and base_url
returns exactly the parsed URL. -/
theorem base_url_unwrap_total (e : Environment) :
    ∃ u, Url.parse e.base_url_string = .ok u ∧ e.base_url = u := by
  cases e <;> exact ⟨_, rfl, rfl⟩

/-- C6: each Environment maps to its fixed base URL (stated as: parsing the
spec's literal yields exactly that environment's base_url), and a
successfully built client's base_url is its configured environment's fixed
URL. -/
theorem environment_base_url_fixed
    (b : RestClientBuilder) (openResult : Except IoError Unit)
    (readResult : Except IoError (List Nat))
    (from_pem : List Nat → Except ReqwestError Identity)
    (clientBuild : ClientConfig → Except ReqwestError HttpClient)
    (c : RestClient)
    (hbuild : b.build openResult readResult from_pem clientBuild = .ok c) :
    Url.parse "https://test-rest.basispoort.nl/" = .ok Environment.Test.base_url
    ∧ Url.parse "https://acceptatie-rest.basispoort.nl/"
        = .ok Environment.Acceptance.base_url
    ∧ Url.parse "https://staging-rest.basispoort.nl/"
        = .ok Environment.Staging.base_url
    ∧ Url.parse "https://rest.basispoort.nl/" = .ok Environment.Production.base_url
    ∧ c.base_url = b.environment.base_url := by
  refine ⟨rfl, rfl, rfl, rfl, ?_⟩
  unfold RestClientBuilder.build at hbuild
  repeat' split at hbuild
  all_goals simp_all
  subst hbuild
  rfl

/-- Witness for C6: a successful build against the Test environment yields
a client whose base_url is the Test base URL. -/
theorem environment_base_url_fixed_witness :
    (RestClientBuilder.new "client.pem" .Test).build (.ok ()) (.ok [])
        (fun cert => .ok ⟨cert⟩) (fun cfg => .ok ⟨cfg⟩) = .ok builtTestClient
    ∧ builtTestClient.base_url = Environment.Test.base_url :=
  ⟨rfl,
    (environment_base_url_fixed (RestClientBuilder.new "client.pem" .Test)
      (.ok ()) (.ok []) (fun cert => .ok ⟨cert⟩) (fun cfg => .ok ⟨cfg⟩)
      builtTestClient rfl).2.2.2.2⟩

/-- C1 counterexample: a 301 response is non-2xx (and outside reqwest's
error_for_status range), yet get does not short-circuit as an
HTTP-response error: the response proceeds to success-path decoding and
the call succeeds. -/
theorem non2xx_passthrough_counterexample :
    testClient.get (fun _ => none) decodeUnit
        (fun _ => .ok { status := 301, bodyResult := .ok "" }) "methode/abc" = .ok ()
    ∧ statusIsError 301 = false :=
  ⟨rfl, rfl⟩

/-- C1 (amended): for every verb operation, a response with status in
[400,599] short-circuits as an HTTP-response error carrying the request
URL, the status and the best-effort decoded error body; a response with
any other status (2xx, but also 1xx and 3xx) proceeds to success-path body
decoding. -/
theorem status_range_classification {T : Type}
    (c : RestClient) (jsonParse : String → Option Json)
    (decode : String → Except SerdeJsonError T)
    (path : String) (url : Url) (resp : Response) (body : String) (pser : String)
    (hurl : c.make_url path = .ok url)
    (hbody : resp.bodyResult = .ok body) :
    (statusIsError resp.status = true →
      c.get jsonParse decode (fun _ => .ok resp) path
          = .error (.HttpResponse url resp.status (errorBodyOf jsonParse body)
              (.status resp.status))
        ∧ c.delete jsonParse decode (fun _ => .ok resp) path
          = .error (.HttpResponse url resp.status (errorBodyOf jsonParse body)
              (.status resp.status))
        ∧ c.post jsonParse decode (fun _ _ => .ok resp) path (.ok pser)
          = .error (.HttpResponse url resp.status (errorBodyOf jsonParse body)
              (.status resp.status))
        ∧ c.put jsonParse decode (fun _ _ => .ok resp) path (.ok pser)
          = .error (.HttpResponse url resp.status (errorBodyOf jsonParse body)
              (.status resp.status)))
    ∧ (statusIsError resp.status = false →
      c.get jsonParse decode (fun _ => .ok resp) path = c.deserialize decode resp
        ∧ c.delete jsonParse decode (fun _ => .ok resp) path = c.deserialize decode resp
        ∧ c.post jsonParse decode (fun _ _ => .ok resp) path (.ok pser)
            = c.deserialize decode resp
        ∧ c.put jsonParse decode (fun _ _ => .ok resp) path (.ok pser)
            = c.deserialize decode resp) := by
  constructor
  · intro herr
    refine ⟨?_, ?_, ?_, ?_⟩ <;>
      simp [RestClient.get, RestClient.delete, RestClient.post, RestClient.put,
        sendWithJsonBody, hurl, RestClient.error_status, herr, hbody, errorBodyOf]
  · intro hok
    refine ⟨?_, ?_, ?_, ?_⟩ <;>
      simp [RestClient.get, RestClient.delete, RestClient.post, RestClient.put,
        sendWithJsonBody, hurl, RestClient.error_status, hok]

/-- Witness for the amended C1 at a 404 response with a non-JSON body. -/
theorem status_range_classification_witness :
    testClient.get (fun _ => none) decodeUnit
        (fun _ => .ok { status := 404, bodyResult := .ok "oops" }) "methode/abc"
      = .error (.HttpResponse testUrl 404 (.Plain "oops") (.status 404)) :=
  ((status_range_classification testClient (fun _ => none) decodeUnit "methode/abc"
      testUrl { status := 404, bodyResult := .ok "oops" } "oops" "x" rfl rfl).1 rfl).1

/-- C2: for every verb operation, a response with status in [400,599]
yields an HTTP-response error whose status equals the response's actual
status, whatever the body contains, provided the body could be read; if
reading the body fails, the distinct receive-body error is returned
instead. -/
theorem http_error_status_and_receive_body {T : Type}
    (c : RestClient) (jsonParse : String → Option Json)
    (decode : String → Except SerdeJsonError T)
    (path : String) (url : Url) (resp : Response) (body : String)
    (e : ReqwestError) (pser : String)
    (hurl : c.make_url path = .ok url)
    (hstatus : 400 ≤ resp.status ∧ resp.status ≤ 599) :
    (resp.bodyResult = .ok body →
      c.get jsonParse decode (fun _ => .ok resp) path
          = .error (.HttpResponse url resp.status (errorBodyOf jsonParse body)
              (.status resp.status))
        ∧ c.delete jsonParse decode (fun _ => .ok resp) path
          = .error (.HttpResponse url resp.status (errorBodyOf jsonParse body)
              (.status resp.status))
        ∧ c.post jsonParse decode (fun _ _ => .ok resp) path (.ok pser)
          = .error (.HttpResponse url resp.status (errorBodyOf jsonParse body)
              (.status resp.status))
        ∧ c.put jsonParse decode (fun _ _ => .ok resp) path (.ok pser)
          = .error (.HttpResponse url resp.status (errorBodyOf jsonParse body)
              (.status resp.status)))
    ∧ (resp.bodyResult = .error e →
      c.get jsonParse decode (fun _ => .ok resp) path = .error (.ReceiveResponseBody e)
        ∧ c.delete jsonParse decode (fun _ => .ok resp) path
            = .error (.ReceiveResponseBody e)
        ∧ c.post jsonParse decode (fun _ _ => .ok resp) path (.ok pser)
            = .error (.ReceiveResponseBody e)
        ∧ c.put jsonParse decode (fun _ _ => .ok resp) path (.ok pser)
            = .error (.ReceiveResponseBody e)) := by
  have herr : statusIsError resp.status = true := by
    simp only [statusIsError, Bool.and_eq_true, decide_eq_true_eq]
    exact hstatus
  constructor
  · intro hbody
    refine ⟨?_, ?_, ?_, ?_⟩ <;>
      simp [RestClient.get, RestClient.delete, RestClient.post, RestClient.put,
        sendWithJsonBody, hurl, RestClient.error_status, herr, hbody, errorBodyOf]
  · intro hbody
    refine ⟨?_, ?_, ?_, ?_⟩ <;>
      simp [RestClient.get, RestClient.delete, RestClient.post, RestClient.put,
        sendWithJsonBody, hurl, RestClient.error_status, herr, hbody]

/-- Witness for C2 at a 404 response whose body read fails. -/
theorem http_error_status_and_receive_body_witness :
    testClient.get (fun _ => none) decodeUnit
        (fun _ => .ok { status := 404, bodyResult := .error (.transport "reset") })
        "methode/abc"
      = .error (.ReceiveResponseBody (.transport "reset")) :=
  ((http_error_status_and_receive_body testClient (fun _ => none) decodeUnit
      "methode/abc" testUrl
      { status := 404, bodyResult := .error (.transport "reset") } "" (.transport "reset")
      "x" rfl (by decide)).2 rfl).1

/-- C3: a 2xx response with a zero-length body is decoded as the JSON
literal null (deserialize treats an empty body exactly like the body
"null"); in particular get and delete at the unit type succeed with (),
as do post and put, while a non-empty body the decoder rejects yields the
distinct decode-failure error. -/
theorem empty_body_null_decode {T : Type}
    (c : RestClient) (jsonParse : String → Option Json)
    (decode : String → Except SerdeJsonError T)
    (path : String) (url : Url) (s : Nat) (body : String) (e : SerdeJsonError)
    (pser : String)
    (hurl : c.make_url path = .ok url)
    (h2xx : 200 ≤ s ∧ s ≤ 299)
    (hne : body.length ≠ 0) (hdec : decode body = .error e) :
    c.deserialize decode { status := s, bodyResult := .ok "" }
        = c.deserialize decode { status := s, bodyResult := .ok "null" }
    ∧ c.get jsonParse decodeUnit
        (fun _ => .ok { status := s, bodyResult := .ok "" }) path = .ok ()
    ∧ c.delete jsonParse decodeUnit
        (fun _ => .ok { status := s, bodyResult := .ok "" }) path = .ok ()
    ∧ c.post jsonParse decodeUnit
        (fun _ _ => .ok { status := s, bodyResult := .ok "" }) path (.ok pser) = .ok ()
    ∧ c.put jsonParse decodeUnit
        (fun _ _ => .ok { status := s, bodyResult := .ok "" }) path (.ok pser) = .ok ()
    ∧ c.get jsonParse decode
        (fun _ => .ok { status := s, bodyResult := .ok body }) path
        = .error (.DeserializeResponseBody e) := by
  have hok : statusIsError s = false := by
    simp only [statusIsError, Bool.and_eq_false_iff, decide_eq_false_iff_not]
    omega
  have hdeser : c.deserialize decode { status := s, bodyResult := .ok body }
      = .error (.DeserializeResponseBody e) := by
    unfold RestClient.deserialize
    cases hlen : body.length with
    | zero => exact absurd hlen hne
    | succ n => simp [hlen, hdec]
  refine ⟨rfl, ?_, ?_, ?_, ?_, ?_⟩ <;>
    simp [RestClient.get, RestClient.delete, RestClient.post, RestClient.put,
      sendWithJsonBody, hurl, RestClient.error_status, hok, hdeser,
      RestClient.deserialize, decodeUnit, hdec]

/-- Witness for C3: a 204 response with an empty body at the unit type. -/
theorem empty_body_null_decode_witness :
    testClient.delete (fun _ => none) decodeUnit
        (fun _ => .ok { status := 204, bodyResult := .ok "" }) "methode/abc" = .ok () :=
  (empty_body_null_decode testClient (fun _ => none) decodeUnit "methode/abc"
      testUrl 204 "oops" ⟨"invalid type"⟩ "x" rfl (by omega) (by decide)
      rfl).2.2.1

/-- C4 counterexample: a 301 (non-2xx) response with a non-JSON body does
not yield an HTTP-response error with a Plain payload; its body instead
goes through success-path decoding and the call fails with the
decode-failure error. -/
theorem error_body_redirect_decode_counterexample :
    testClient.get (fun _ => none) decodeUnit
        (fun _ => .ok { status := 301, bodyResult := .ok "oops" }) "methode/abc"
      = .error (.DeserializeResponseBody ⟨"invalid type"⟩)
    ∧ Error.isHttpResponse (.DeserializeResponseBody ⟨"invalid type"⟩) = false :=
  ⟨rfl, rfl⟩

/-- C4 (amended): for every response with status in [400,599] whose body
was read, the HTTP-response error's payload is ErrorResponse.JSON of the
parsed body when it parses as JSON and ErrorResponse.Plain of the raw text
otherwise, for every verb operation; within that status range the error
body never reaches success-path decoding. -/
theorem error_body_json_or_plain {T : Type}
    (c : RestClient) (jsonParse : String → Option Json)
    (decode : String → Except SerdeJsonError T)
    (path : String) (url : Url) (resp : Response) (body : String) (v : Json)
    (pser : String)
    (hurl : c.make_url path = .ok url)
    (hread : resp.bodyResult = .ok body)
    (hstatus : 400 ≤ resp.status ∧ resp.status ≤ 599) :
    (jsonParse body = some v →
      c.get jsonParse decode (fun _ => .ok resp) path
          = .error (.HttpResponse url resp.status (.JSON v) (.status resp.status))
        ∧ c.delete jsonParse decode (fun _ => .ok resp) path
          = .error (.HttpResponse url resp.status (.JSON v) (.status resp.status))
        ∧ c.post jsonParse decode (fun _ _ => .ok resp) path (.ok pser)
          = .error (.HttpResponse url resp.status (.JSON v) (.status resp.status))
        ∧ c.put jsonParse decode (fun _ _ => .ok resp) path (.ok pser)
          = .error (.HttpResponse url resp.status (.JSON v) (.status resp.status)))
    ∧ (jsonParse body = none →
      c.get jsonParse decode (fun _ => .ok resp) path
          = .error (.HttpResponse url resp.status (.Plain body) (.status resp.status))
        ∧ c.delete jsonParse decode (fun _ => .ok resp) path
          = .error (.HttpResponse url resp.status (.Plain body) (.status resp.status))
        ∧ c.post jsonParse decode (fun _ _ => .ok resp) path (.ok pser)
          = .error (.HttpResponse url resp.status (.Plain body) (.status resp.status))
        ∧ c.put jsonParse decode (fun _ _ => .ok resp) path (.ok pser)
          = .error (.HttpResponse url resp.status (.Plain body) (.status resp.status))) := by
  have herr : statusIsError resp.status = true := by
    simp only [statusIsError, Bool.and_eq_true, decide_eq_true_eq]
    exact hstatus
  constructor
  · intro hjson
    refine ⟨?_, ?_, ?_, ?_⟩ <;>
      simp [RestClient.get, RestClient.delete, RestClient.post, RestClient.put,
        sendWithJsonBody, hurl, RestClient.error_status, herr, hread, hjson]
  · intro hjson
    refine ⟨?_, ?_, ?_, ?_⟩ <;>
      simp [RestClient.get, RestClient.delete, RestClient.post, RestClient.put,
        sendWithJsonBody, hurl, RestClient.error_status, herr, hread, hjson]

/-- Witness for the amended C4 at a 404 response whose body parses as the
JSON array [0]. -/
theorem error_body_json_or_plain_witness :
    testClient.get
        (fun b => if b = "[0]" then some (.arr [.num 0]) else none) decodeUnit
        (fun _ => .ok { status := 404, bodyResult := .ok "[0]" }) "methode/abc"
      = .error (.HttpResponse testUrl 404 (.JSON (.arr [.num 0])) (.status 404)) :=
  ((error_body_json_or_plain testClient
      (fun b => if b = "[0]" then some (.arr [.num 0]) else none) decodeUnit
      "methode/abc" testUrl { status := 404, bodyResult := .ok "[0]" } "[0]"
      (.arr [.num 0]) "x" rfl rfl (by decide)).1 rfl).1

/-- C7 counterexample: the protocol-relative path "//example.com/x" does
not begin with a scheme, yet make_url succeeds with a host different from
the base URL's host. -/
theorem protocol_relative_host_change_counterexample :
    beginsWithScheme "//example.com/x" = false
    ∧ testClient.make_url "//example.com/x"
        = .ok { scheme := "https", host := "example.com", path := "/x" }
    ∧ testClient.base_url.host = "test-rest.basispoort.nl"
    ∧ decide ("example.com" = "test-rest.basispoort.nl") = false :=
  ⟨rfl, rfl, rfl, rfl⟩

/-- Resolution preserves the base host for every input whose prepared form
neither begins with a scheme nor enters the authority-replacement states:
such an input is either absolute-rooted, relative, or empty, and each of
those forms keeps the base authority. -/
theorem join_host_preserved (base : Url) (p : String)
    (hs : beginsWithSchemeL (prepareInput p) = false)
    (hp : replacesAuthority p = false) :
    ∃ u, base.join p = .ok u ∧ u.host = base.host := by
  unfold replacesAuthority at hp
  simp only [Url.join, hs, Bool.false_eq_true, if_false]
  split
  · rename_i c1 c2 rest heq
    rw [heq] at hp
    change (isSlashChar c1 && isSlashChar c2) = false at hp
    rw [hp]
    simp only [Bool.false_eq_true, if_false]
    split
    · exact ⟨_, rfl, rfl⟩
    · exact ⟨_, rfl, rfl⟩
  · split
    · exact ⟨_, rfl, rfl⟩
    · exact ⟨_, rfl, rfl⟩
  · exact ⟨_, rfl, rfl⟩

/-- C7 (amended): for every path whose WHATWG-prepared form (C0 controls
and spaces stripped from the ends, tabs and newlines removed) neither
begins with a scheme nor begins with two slash-or-backslash characters,
make_url either returns a URL whose host equals the base URL's host or
fails with the ParseUrl error carrying the offending path; a path that
enters the authority-replacement states (slash or backslash pairs,
possibly whitespace-obfuscated) may instead succeed with a different
host. -/
theorem make_url_host_preserved (c : RestClient) (p : String)
    (hs : beginsWithSchemeL (prepareInput p) = false)
    (hp : replacesAuthority p = false) :
    (∃ u, c.make_url p = .ok u ∧ u.host = c.base_url.host)
    ∨ (∃ e, c.make_url p = .error (.ParseUrl p e)) := by
  left
  obtain ⟨u, hu, hh⟩ := join_host_preserved c.base_url p hs hp
  exact ⟨u, by rw [RestClient.make_url, hu], hh⟩

/-- Witness for the amended C7 at the relative path "methode/abc". -/
theorem make_url_host_preserved_witness :
    (∃ u, testClient.make_url "methode/abc" = .ok u
        ∧ u.host = testClient.base_url.host)
    ∨ (∃ e, testClient.make_url "methode/abc"
        = .error (.ParseUrl "methode/abc" e)) :=
  make_url_host_preserved testClient "methode/abc" rfl rfl

/-- C8 counterexample: a payload whose JSON serialization fails makes post
return the request-failure kind (HttpRequest wrapping reqwest's builder
error), not the EncodePayload kind. -/
theorem payload_encode_failure_counterexample :
    testClient.post (fun _ => none) decodeUnit
        (fun _ _ => .ok { status := 200, bodyResult := .ok "" })
        "methode/abc" (.error ⟨"serialize failed"⟩)
      = .error (.HttpRequest (.builder ⟨"serialize failed"⟩))
    ∧ Error.isEncodePayload (.HttpRequest (.builder ⟨"serialize failed"⟩)) = false :=
  ⟨rfl, rfl⟩

/-- C8 (amended): for every post and put whose payload serialization
fails, the operation returns the request-failure kind: HttpRequest
wrapping the builder error that holds the serialization failure. The
EncodePayload kind is never produced by the verb operations. -/
theorem payload_encode_failure_maps_to_http_request {T : Type}
    (c : RestClient) (jsonParse : String → Option Json)
    (decode : String → Except SerdeJsonError T)
    (net : Url → String → Except ReqwestError Response)
    (path : String) (url : Url) (e : SerdeJsonError)
    (hurl : c.make_url path = .ok url) :
    c.post jsonParse decode net path (.error e) = .error (.HttpRequest (.builder e))
    ∧ c.put jsonParse decode net path (.error e) = .error (.HttpRequest (.builder e))
    ∧ Error.isEncodePayload (.HttpRequest (.builder e)) = false := by
  refine ⟨?_, ?_, rfl⟩ <;>
    simp [RestClient.post, RestClient.put, sendWithJsonBody, hurl]

/-- Witness for the amended C8 at a concrete failing serialization. -/
theorem payload_encode_failure_maps_to_http_request_witness :
    testClient.put (fun _ => none) decodeUnit
        (fun _ _ => .ok { status := 200, bodyResult := .ok "" })
        "methode/abc" (.error ⟨"serialize failed"⟩)
      = .error (.HttpRequest (.builder ⟨"serialize failed"⟩)) :=
  (payload_encode_failure_maps_to_http_request testClient (fun _ => none)
      decodeUnit (fun _ _ => .ok { status := 200, bodyResult := .ok "" })
      "methode/abc" testUrl ⟨"serialize failed"⟩ rfl).2.1

end Basispoort
